import Mathlib

/-!
Shallow embedding of `src/datas/lidar/lidar_utilities.py` (Rayleigh
scattering / extinction / transmission pipeline).  Arrays become `List ℝ`,
numpy floating point becomes real arithmetic, and fallible operations
(numpy broadcast shape errors, scipy interp1d out-of-domain errors) become
`Option`-valued results.
-/

namespace LidarUtilities

/-- numpy 1-D broadcasting division `a / b` for the array-by-array divisions
appearing in the source (`P/T`, `pressure/(kB*(temperature+273.15))`):
equal-length arrays divide elementwise; a length-1 operand broadcasts
against the other; any other length mismatch raises, modelled as `none`. -/
noncomputable def npDiv (a b : List ℝ) : Option (List ℝ) :=
  if a.length = b.length then some (List.zipWith (fun x y => x / y) a b)
  else if b.length = 1 then some (a.map (fun x => x / b.getD 0 0))
  else if a.length = 1 then some (b.map (fun y => a.getD 0 0 / y))
  else none

/-- Source `calc_beta_rayleigh(wavelength, P, T, nanometers=True)`:
`if nanometers is True: wavelength = wavelength * 10**-9`;
`beta_rayleigh = 2.938e-32 * (P/T) * (wavelength**(-4.0117))`.
`P/T` is a numpy array division, the remaining factors are scalars. -/
noncomputable def calc_beta_rayleigh (wavelength : ℝ) (P T : List ℝ)
    (nanometers : Bool) : Option (List ℝ) :=
  let w := if nanometers then wavelength * (10 : ℝ) ^ (-9 : ℤ) else wavelength
  (npDiv P T).map (fun l => l.map (fun q => 2.938e-32 * q * w ^ (-4.0117 : ℝ)))

/-- Source `calc_number_density(pressure, temperature, celsius=True)`:
`kB = 1.38064852e-23`; with `celsius` the divisor is
`kB*(temperature+273.15)` elementwise, otherwise `kB*temperature`;
then the numpy array division `pressure / divisor`. -/
noncomputable def calc_number_density (pressure temperature : List ℝ)
    (celsius : Bool) : Option (List ℝ) :=
  let kB : ℝ := 1.38064852e-23
  if celsius then npDiv pressure (temperature.map (fun t => kB * (t + 273.15)))
  else npDiv pressure (temperature.map (fun t => kB * t))

/-- Source `calc_index_refraction(wavelength)`: index of refraction of dry air at STP
for wavelength in nm. -/
noncomputable def calc_index_refraction (wavelength : ℝ) : ℝ :=
  1.0 + (5791817.0 / (238.0185 - (10 : ℝ) ^ 6 / wavelength ^ 2)
    + 167909.0 / (57.362 - (10 : ℝ) ^ 6 / wavelength ^ 2)) * 1e-8

/-- The 36 tabulated wavelengths (nm) of `calc_depol_ratio`. -/
def wavelengths {K : Type*} [LinearOrderedField K] : List K :=
  [200, 205, 210, 215, 220,
   225, 230, 240, 250, 260,
   270, 280, 290, 300, 310,
   320, 330, 340, 350, 360,
   370, 380, 390, 400, 450,
   500, 550, 600, 650, 700,
   800, 850, 900, 950, 1000,
   1064]

/-- The 36 tabulated depolarization ratios of `calc_depol_ratio`. -/
def depolarize {K : Type*} [LinearOrderedField K] : List K :=
  [0.0454545, 0.0438372, 0.0422133, 0.0411272, 0.0400381,
   0.0389462, 0.0378513, 0.0367534, 0.0356527, 0.0345489,
   0.033996, 0.0328878, 0.0323326, 0.0317766, 0.0317766,
   0.0312199, 0.0306624, 0.0306624, 0.0301042, 0.0301042,
   0.0301042, 0.0295452, 0.0295452, 0.0295452, 0.0289855,
   0.028425, 0.028425, 0.0278638, 0.0278638, 0.0278638,
   0.0273018, 0.0273018, 0.0273018, 0.0273018, 0.0273018,
   0.0273018]

/-- Piecewise-linear interpolation over a list of `(x, y)` knots, the
behavior of `scipy.interpolate.interp1d(x, y, kind=linear)` applied to a
query point at or above the first knot: the first segment whose right
endpoint reaches the query evaluates the chord; a query beyond the last
knot runs off the table and is `none` (interp1d's `bounds_error`). -/
def interpLinear {K : Type*} [LinearOrderedField K] :
    List (K × K) → K → Option K
  | (x1, y1) :: (x2, y2) :: rest, lam =>
      if lam ≤ x2 then some (y1 + (lam - x1) * (y2 - y1) / (x2 - x1))
      else interpLinear ((x2, y2) :: rest) lam
  | _, _ => none

/-- Source `calc_depol_ratio(wavelength)`:
`interp1d(wavelengths, depolarize, kind=linear)(wavelength)`.
A query below the first knot raises in interp1d (`bounds_error`), modelled
by the explicit lower guard; a query above the last knot falls off the end
of `interpLinear` and is likewise `none`. -/
def calc_depol_ratio {K : Type*} [LinearOrderedField K] (wavelength : K) :
    Option K :=
  if wavelength < 200 then none
  else interpLinear (List.zip wavelengths depolarize) wavelength

/-- Source `calc_rayleigh_scat_cross(wavelength)`: Rayleigh scattering cross
section per molecule for wavelength in nm; `nstp = 2.54691e25`. -/
noncomputable def calc_rayleigh_scat_cross (wavelength : ℝ) : Option ℝ :=
  let nstp : ℝ := 2.54691e25
  (calc_depol_ratio wavelength).map (fun dr =>
    1e36 * 24 * Real.pi ^ 3 * (calc_index_refraction wavelength ^ 2 - 1) ^ 2
      / (wavelength ^ 4 * nstp ^ 2 * (calc_index_refraction wavelength ^ 2 + 2) ^ 2)
      * ((6 + 3 * dr) / (6 - 7 * dr)))

/-- Source `calc_rayleigh_extinction(wavelength, numberDensity)`:
`numberDensity * calc_rayleigh_scat_cross(wavelength) * 1000`
(array times scalar times scalar). -/
noncomputable def calc_rayleigh_extinction (wavelength : ℝ)
    (numberDensity : List ℝ) : Option (List ℝ) :=
  (calc_rayleigh_scat_cross wavelength).map
    (fun rs => numberDensity.map (fun nd => nd * rs * 1000))

/-- Source `calc_rayleigh_trans(rayleigh_extinction, altitude_profile, kilometers=True)`:
`if kilometers is True: altitude_profile = altitude_profile / 1000`;
`int_alpha = [rayleigh_extinction * (altitude_profile[i] - altitude_profile[i-1])
for i in np.arange(1, len(altitude_profile))]` — note the WHOLE extinction
array is scaled by each altitude delta (numpy broadcast), and `np.sum`
adds every element of every scaled copy; finally `exp(-2 * sum)`.
Python's `i` ranging over `1 .. len-1` is reindexed here as `i+1` for
`i` in `range (len - 1)`. -/
noncomputable def calc_rayleigh_trans (rayleigh_extinction : List ℝ)
    (altitude_profile : List ℝ) (kilometers : Bool) : ℝ :=
  let ap := if kilometers then altitude_profile.map (fun z => z / 1000)
            else altitude_profile
  let int_alpha := (List.range (ap.length - 1)).map (fun i =>
    (rayleigh_extinction.map (fun a => a * (ap.getD (i + 1) 0 - ap.getD i 0))).sum)
  Real.exp (-2 * int_alpha.sum)

/-- Source `calc_rayleigh_beta_dot_trans(wavelength, pressure, temperature, altitude,
nanometers=True, kilometers=True, celsius=True)`: the full pipeline.  Note
the RAW `wavelength` argument is forwarded to `calc_rayleigh_extinction`
(which expects nm) and the RAW `temperature` to `calc_beta_rayleigh`
(which applies no Celsius conversion); a stage that raises propagates as
`none`. -/
noncomputable def calc_rayleigh_beta_dot_trans (wavelength : ℝ)
    (pressure temperature altitude : List ℝ)
    (nanometers kilometers celsius : Bool) :
    Option (List ℝ × List ℝ × List ℝ × List ℝ × ℝ) :=
  match calc_beta_rayleigh wavelength pressure temperature nanometers with
  | none => none
  | some beta =>
    match calc_number_density pressure temperature celsius with
    | none => none
    | some numberDensity =>
      match calc_rayleigh_extinction wavelength numberDensity with
      | none => none
      | some alpha =>
        let rayleigh_trans := calc_rayleigh_trans alpha altitude kilometers
        some (beta.map (fun b => b * rayleigh_trans), beta, numberDensity,
          alpha, rayleigh_trans)

/-! ### Helper lemmas -/

theorem sum_map_mul_const (l : List ℝ) (c : ℝ) :
    (l.map (fun a => a * c)).sum = l.sum * c := by
  induction l with
  | nil => simp
  | cons x xs ih => simp [ih]; ring

theorem sum_map_const_mul {α : Type*} (l : List α) (f : α → ℝ) (c : ℝ) :
    (l.map (fun a => c * f a)).sum = c * (l.map f).sum := by
  induction l with
  | nil => simp
  | cons x xs ih => simp [ih]; ring

theorem range_map_telescope (f : ℕ → ℝ) (m : ℕ) :
    ((List.range m).map (fun i => f (i + 1) - f i)).sum = f m - f 0 := by
  induction m with
  | zero => simp
  | succ k ih => rw [List.range_succ]; simp [ih]

theorem getD_map_div (ap : List ℝ) (i : ℕ) :
    (ap.map (fun z => z / 1000)).getD i 0 = ap.getD i 0 / 1000 := by
  rw [List.getD_eq_getElem?_getD, List.getD_eq_getElem?_getD, List.getElem?_map]
  cases ap[i]? <;> simp

theorem trans_false_eq (re ap : List ℝ) :
    calc_rayleigh_trans re ap false =
      Real.exp (-2 * (re.sum * (ap.getD (ap.length - 1) 0 - ap.getD 0 0))) := by
  have h2 : (List.range (ap.length - 1)).map (fun i =>
      (re.map (fun a => a * (ap.getD (i + 1) 0 - ap.getD i 0))).sum)
      = (List.range (ap.length - 1)).map (fun i =>
      re.sum * (ap.getD (i + 1) 0 - ap.getD i 0)) :=
    List.map_congr_left (fun i _ => sum_map_mul_const re _)
  have h1 : ((List.range (ap.length - 1)).map (fun i =>
      (re.map (fun a => a * (ap.getD (i + 1) 0 - ap.getD i 0))).sum)).sum
      = re.sum * (ap.getD (ap.length - 1) 0 - ap.getD 0 0) := by
    rw [h2, sum_map_const_mul (List.range (ap.length - 1))
      (fun i => ap.getD (i + 1) 0 - ap.getD i 0) re.sum,
      range_map_telescope (fun i => ap.getD i 0) (ap.length - 1)]
  unfold calc_rayleigh_trans
  simp only [Bool.false_eq_true, if_false]
  rw [h1]

theorem trans_true_eq (re ap : List ℝ) :
    calc_rayleigh_trans re ap true =
      Real.exp (-2 * (re.sum * ((ap.getD (ap.length - 1) 0 - ap.getD 0 0) / 1000))) := by
  have h0 : calc_rayleigh_trans re ap true
      = calc_rayleigh_trans re (ap.map (fun z => z / 1000)) false := by
    unfold calc_rayleigh_trans; simp
  rw [h0, trans_false_eq, List.length_map, getD_map_div, getD_map_div]
  congr 1
  ring

theorem getD_zero_le_getD_last (ap : List ℝ) (h : List.Sorted (· < ·) ap) :
    ap.getD 0 0 ≤ ap.getD (ap.length - 1) 0 := by
  cases ap with
  | nil => simp
  | cons a l =>
    rcases Nat.eq_zero_or_pos l.length with h0 | hpos
    · have hnil : l = [] := List.length_eq_zero.mp h0
      subst hnil; simp
    · have hbound : (a :: l).length - 1 < (a :: l).length := by simp
      rw [List.getD_eq_getElem?_getD, List.getD_eq_getElem?_getD,
        List.getElem?_eq_getElem (by simp), List.getElem?_eq_getElem hbound]
      simp only [Option.getD_some]
      have hp := List.pairwise_iff_get.mp h
      have := hp ⟨0, by simp⟩ ⟨(a :: l).length - 1, hbound⟩ (by simpa [Fin.lt_def] using hpos)
      simpa [List.get_eq_getElem] using le_of_lt this

/-! ### Claims C1, C4, C7, C9 -/

/-- C1 (counterexample): with extinction `[1, 2]` and altitude `[0, 1]`
(already km), the code does NOT return the left-endpoint rectangle sum
`exp(-2 * (α[1] * (z[1] - z[0]))) = exp(-4)`: it broadcasts the whole
extinction array against the delta and returns `exp(-6)`. -/
theorem calc_rayleigh_trans_not_left_endpoint :
    calc_rayleigh_trans [1, 2] [0, 1] false ≠ Real.exp (-2 * ((2 : ℝ) * (1 - 0))) := by
  rw [trans_false_eq, ne_eq, Real.exp_eq_exp]
  norm_num

/-- C1 (amended): for equal-length extinction and altitude profiles with
n ≥ 2 samples (altitude already km), `calc_rayleigh_trans` multiplies the
WHOLE extinction array by every altitude delta, so the sum telescopes and
the result is `exp(-2 * (Σ α) * (z[n-1] - z[0]))`. -/
theorem calc_rayleigh_trans_broadcast_telescopes (re ap : List ℝ)
    (hlen : re.length = ap.length) (h2 : 2 ≤ ap.length) :
    calc_rayleigh_trans re ap false =
      Real.exp (-2 * (re.sum * (ap.getD (ap.length - 1) 0 - ap.getD 0 0))) :=
  trans_false_eq re ap

theorem calc_rayleigh_trans_broadcast_telescopes_witness :
    ([(1 : ℝ), 2]).length = ([(0 : ℝ), 1]).length ∧ 2 ≤ ([(0 : ℝ), 1]).length ∧
    calc_rayleigh_trans [1, 2] [0, 1] false =
      Real.exp (-2 * (([(1 : ℝ), 2]).sum *
        (([(0 : ℝ), 1]).getD (([(0 : ℝ), 1]).length - 1) 0 - ([(0 : ℝ), 1]).getD 0 0))) :=
  ⟨by decide, by decide,
    calc_rayleigh_trans_broadcast_telescopes [1, 2] [0, 1] (by decide) (by decide)⟩

/-- C4: with kilometers=True and altitude of length m ≥ 2, the broadcast
of the whole extinction array against every altitude gap telescopes:
the result is exactly `exp(-2 * (Σ α) * (z[m-1] - z[0]) / 1000)`. -/
theorem calc_rayleigh_trans_km_telescopes (re ap : List ℝ) (h2 : 2 ≤ ap.length) :
    calc_rayleigh_trans re ap true =
      Real.exp (-2 * re.sum * (ap.getD (ap.length - 1) 0 - ap.getD 0 0) / 1000) := by
  rw [trans_true_eq]
  congr 1
  ring

theorem calc_rayleigh_trans_km_telescopes_witness :
    2 ≤ ([(0 : ℝ), 1000, 3000]).length ∧
    calc_rayleigh_trans [1, 2] [(0 : ℝ), 1000, 3000] true =
      Real.exp (-2 * ([(1 : ℝ), 2]).sum *
        (([(0 : ℝ), 1000, 3000]).getD (([(0 : ℝ), 1000, 3000]).length - 1) 0
          - ([(0 : ℝ), 1000, 3000]).getD 0 0) / 1000) :=
  ⟨by decide, calc_rayleigh_trans_km_telescopes [1, 2] [0, 1000, 3000] (by decide)⟩

/-- C7: for any extinction profile with non-negative entries and any
strictly increasing altitude profile (the Profile invariant), the
transmission lies in (0, 1]; and for altitude profiles with fewer than 2
samples it is exactly 1. -/
theorem calc_rayleigh_trans_mem_Ioc (re ap : List ℝ) (k : Bool)
    (hre : ∀ a ∈ re, 0 ≤ a) (hap : List.Sorted (· < ·) ap) :
    (0 < calc_rayleigh_trans re ap k ∧ calc_rayleigh_trans re ap k ≤ 1) ∧
    (ap.length < 2 → calc_rayleigh_trans re ap k = 1) := by
  have hd := getD_zero_le_getD_last ap hap
  have hS : 0 ≤ re.sum := List.sum_nonneg hre
  have hprod : 0 ≤ re.sum * (ap.getD (ap.length - 1) 0 - ap.getD 0 0) :=
    mul_nonneg hS (by linarith)
  constructor
  · cases k
    · rw [trans_false_eq]
      exact ⟨Real.exp_pos _, Real.exp_le_one_iff.mpr (by nlinarith)⟩
    · rw [trans_true_eq]
      exact ⟨Real.exp_pos _, Real.exp_le_one_iff.mpr (by nlinarith)⟩
  · intro hlen
    have h0 : ap.length - 1 = 0 := by omega
    cases k
    · rw [trans_false_eq, h0]
      simp
    · rw [trans_true_eq, h0]
      simp

theorem calc_rayleigh_trans_mem_Ioc_witness :
    (∀ a ∈ [(1 : ℝ)], 0 ≤ a) ∧ List.Sorted (· < ·) [(0 : ℝ), 1000] ∧
    ((0 < calc_rayleigh_trans [1] [(0 : ℝ), 1000] true ∧
      calc_rayleigh_trans [1] [(0 : ℝ), 1000] true ≤ 1) ∧
    (([(0 : ℝ), 1000]).length < 2 → calc_rayleigh_trans [1] [(0 : ℝ), 1000] true = 1)) :=
  ⟨by simp, by simp [List.sorted_cons],
    calc_rayleigh_trans_mem_Ioc [1] [0, 1000] true (by simp)
      (by simp [List.sorted_cons])⟩

/-- C9: for equal-length pressure and temperature profiles,
`calc_number_density` is the elementwise `P / (kB * T)` with
`kB = 1.38064852e-23`, where the temperature is shifted by 273.15 exactly
when celsius=True. -/
theorem calc_number_density_eq (P T : List ℝ) (h : P.length = T.length) :
    calc_number_density P T true
      = some (List.zipWith (fun p t => p / (1.38064852e-23 * (t + 273.15))) P T) ∧
    calc_number_density P T false
      = some (List.zipWith (fun p t => p / (1.38064852e-23 * t)) P T) := by
  unfold calc_number_density npDiv
  constructor
  · rw [if_pos rfl, if_pos (by simp [h]), List.zipWith_map_right]
  · rw [if_neg (by simp), if_pos (by simp [h]), List.zipWith_map_right]

theorem calc_number_density_eq_witness :
    ([(2 : ℝ)]).length = ([(300 : ℝ)]).length ∧
    (calc_number_density [(2 : ℝ)] [(300 : ℝ)] true
      = some (List.zipWith (fun p t => p / (1.38064852e-23 * (t + 273.15))) [(2 : ℝ)] [(300 : ℝ)]) ∧
    calc_number_density [(2 : ℝ)] [(300 : ℝ)] false
      = some (List.zipWith (fun p t => p / (1.38064852e-23 * t)) [(2 : ℝ)] [(300 : ℝ)])) :=
  ⟨by decide, calc_number_density_eq [2] [300] (by decide)⟩


/-! ### More helper lemmas: npDiv, number density, depolarization evaluation -/

theorem npDiv_eq_zipWith (a b : List ℝ) (h : a.length = b.length) :
    npDiv a b = some (List.zipWith (fun x y => x / y) a b) := by
  unfold npDiv
  rw [if_pos h]

theorem nd_true_eq (P T : List ℝ) (h : P.length = T.length) :
    calc_number_density P T true
      = some (List.zipWith (fun p t => p / (1.38064852e-23 * (t + 273.15))) P T) := by
  unfold calc_number_density
  rw [if_pos rfl, npDiv_eq_zipWith _ _ (by simp [h]), List.zipWith_map_right]

theorem nd_false_eq (P T : List ℝ) (h : P.length = T.length) :
    calc_number_density P T false
      = some (List.zipWith (fun p t => p / (1.38064852e-23 * t)) P T) := by
  unfold calc_number_density
  rw [if_neg (by simp), npDiv_eq_zipWith _ _ (by simp [h]), List.zipWith_map_right]

theorem depol_ratio_1064 : calc_depol_ratio (1064 : ℝ) = some 0.0273018 := by
  norm_num [calc_depol_ratio, interpLinear, wavelengths, depolarize, List.zip, List.zipWith]

theorem interpLinear_none_of_gt (lam : ℝ) (l : List (ℝ × ℝ))
    (h : ∀ p ∈ l, p.1 < lam) : interpLinear l lam = none := by
  induction l with
  | nil => rfl
  | cons p t ih =>
    cases t with
    | nil => rfl
    | cons q r =>
      obtain ⟨x1, y1⟩ := p
      obtain ⟨x2, y2⟩ := q
      simp only [interpLinear]
      rw [if_neg (not_le.mpr (h (x2, y2) (by simp)))]
      exact ih (fun p hp => h p (List.mem_cons_of_mem _ hp))

theorem wavelengths_le_1064 : ∀ x ∈ (wavelengths : List ℝ), x ≤ 1064 := by
  norm_num [wavelengths]

theorem depol_ratio_none_of_out (lam : ℝ) (h : lam < 200 ∨ 1064 < lam) :
    calc_depol_ratio lam = none := by
  rcases h with h | h
  · unfold calc_depol_ratio
    rw [if_pos h]
  · unfold calc_depol_ratio
    rw [if_neg (by push_neg; linarith)]
    refine interpLinear_none_of_gt lam _ (fun p hp => ?_)
    have hmem : p.1 ∈ (wavelengths : List ℝ) := by
      obtain ⟨a, b⟩ := p
      exact (List.of_mem_zip hp).1
    have := wavelengths_le_1064 p.1 hmem
    linarith

theorem pipeline_none_of_depol_none (lam : ℝ) (P T Z : List ℝ)
    (hPT : P.length = T.length) (nm k c : Bool)
    (hd : calc_depol_ratio lam = none) :
    calc_rayleigh_beta_dot_trans lam P T Z nm k c = none := by
  have hb : calc_beta_rayleigh lam P T nm
      = some ((List.zipWith (fun x y => x / y) P T).map
        (fun q => 2.938e-32 * q * (if nm then lam * (10 : ℝ) ^ (-9 : ℤ) else lam) ^ (-4.0117 : ℝ))) := by
    unfold calc_beta_rayleigh
    rw [npDiv_eq_zipWith _ _ hPT]
    rfl
  have hext : ∀ ln : List ℝ, calc_rayleigh_extinction lam ln = none := by
    intro ln
    unfold calc_rayleigh_extinction calc_rayleigh_scat_cross
    rw [hd]
    rfl
  unfold calc_rayleigh_beta_dot_trans
  cases c
  · rw [hb, nd_false_eq P T hPT]
    simp [hext]
  · rw [hb, nd_true_eq P T hPT]
    simp [hext]

/-! ### Claims C8, C6 -/

/-- C8: `calc_depol_ratio` linearly interpolates the fixed 36-point table:
at the tabulated endpoint 1064 nm it returns exactly 0.0273018, and at
532 nm it returns the chord between the adjacent rows (500 nm, 0.028425)
and (550 nm, 0.028425). -/
theorem calc_depol_ratio_values :
    calc_depol_ratio (1064 : ℝ) = some 0.0273018 ∧
    calc_depol_ratio (532 : ℝ)
      = some (0.028425 + (532 - 500) * (0.028425 - 0.028425) / (550 - 500)) := by
  refine ⟨depol_ratio_1064, ?_⟩
  norm_num [calc_depol_ratio, interpLinear, wavelengths, depolarize, List.zip, List.zipWith]

/-- C6: any wavelength outside the tabulated domain [200, 1064] nm makes
`calc_depol_ratio` report a domain error (modelled as `none`, interp1d's
bounds error) rather than extrapolate, and a pipeline call reaching it
(equal-length profiles, wavelength forwarded in nm) fails as a whole. -/
theorem calc_depol_ratio_domain_error (lam : ℝ) (h : lam < 200 ∨ 1064 < lam) :
    calc_depol_ratio lam = none ∧
    ∀ P T Z : List ℝ, P.length = T.length → ∀ k c : Bool,
      calc_rayleigh_beta_dot_trans lam P T Z true k c = none :=
  ⟨depol_ratio_none_of_out lam h,
    fun P T Z hPT k c => pipeline_none_of_depol_none lam P T Z hPT true k c
      (depol_ratio_none_of_out lam h)⟩

theorem calc_depol_ratio_domain_error_witness :
    ((2000 : ℝ) < 200 ∨ (1064 : ℝ) < 2000) ∧
    (calc_depol_ratio (2000 : ℝ) = none ∧
    ∀ P T Z : List ℝ, P.length = T.length → ∀ k c : Bool,
      calc_rayleigh_beta_dot_trans 2000 P T Z true k c = none) :=
  ⟨Or.inr (by norm_num), calc_depol_ratio_domain_error 2000 (Or.inr (by norm_num))⟩


/-! ### Beta and transmission helpers -/

theorem beta_eq (w : ℝ) (P T : List ℝ) (h : P.length = T.length) :
    calc_beta_rayleigh w P T true
      = some (List.zipWith
          (fun p t => 2.938e-32 * (p / t) * (w * (10 : ℝ) ^ (-9 : ℤ)) ^ (-4.0117 : ℝ)) P T) := by
  unfold calc_beta_rayleigh
  rw [npDiv_eq_zipWith _ _ h]
  simp only [Option.map_some', List.map_zipWith]
  rfl

theorem trans_km_eq (re ap : List ℝ) :
    calc_rayleigh_trans re ap true
      = calc_rayleigh_trans re (ap.map (fun z => z / 1000)) false := by
  unfold calc_rayleigh_trans
  simp

theorem pipeline_empty_eq :
    calc_rayleigh_beta_dot_trans 1064 [] [] [] true true true
      = some ([], [], [], [], 1) := by
  simp [calc_rayleigh_beta_dot_trans, calc_beta_rayleigh, calc_number_density, npDiv,
    calc_rayleigh_extinction, calc_rayleigh_scat_cross, depol_ratio_1064,
    calc_rayleigh_trans, Real.exp_zero]

theorem nd_none_of_mismatch (P T : List ℝ) (h1 : P.length ≠ T.length)
    (h2 : T.length ≠ 1) (h3 : P.length ≠ 1) : calc_number_density P T true = none := by
  unfold calc_number_density npDiv
  rw [if_pos rfl, if_neg (by simpa using h1), if_neg (by simpa using h2),
    if_neg (by simpa using h3)]

/-! ### Claims C2, C3, C5 -/

/-- C2 (code evaluated at the failing input): the pipeline is NOT
invariant to the wavelength unit flag.  With the wavelength 1064 nm and
nanometers=True the call succeeds, while the same physical wavelength in
meters with nanometers=False is forwarded raw to the extinction stage,
falls below the depolarization table domain, and the whole call fails, so
the five outputs cannot be equal. -/
theorem pipeline_not_unit_flag_invariant :
    (calc_rayleigh_beta_dot_trans 1064 [1] [300] [0, 1000] true true false).isSome = true ∧
    calc_rayleigh_beta_dot_trans (1064 * (10 : ℝ) ^ (-9 : ℤ)) [1] [300] [0, 1000]
      false true false = none := by
  constructor
  · simp [calc_rayleigh_beta_dot_trans, calc_beta_rayleigh, calc_number_density, npDiv,
      calc_rayleigh_extinction, calc_rayleigh_scat_cross, depol_ratio_1064]
  · exact pipeline_none_of_depol_none _ _ _ _ (by decide) false true false
      (depol_ratio_none_of_out _ (Or.inl (by norm_num)))

/-- C3 (counterexample): with celsius=True the backscatter the pipeline
returns is computed from the RAW Celsius temperature — at pressure [1],
temperature [10] °C it equals `calc_beta_rayleigh` on the raw input and
differs from the value computed with the kelvin temperature 10 + 273.15. -/
theorem pipeline_beta_uses_raw_temperature :
    (calc_rayleigh_beta_dot_trans 1064 [1] [10] [0, 1000] true true true).map
        (fun o => o.2.1)
      = calc_beta_rayleigh 1064 [1] [10] true ∧
    calc_beta_rayleigh 1064 [1] [10] true
      ≠ calc_beta_rayleigh 1064 [1] [(10 : ℝ) + 273.15] true := by
  constructor
  · simp [calc_rayleigh_beta_dot_trans, calc_beta_rayleigh, calc_number_density, npDiv,
      calc_rayleigh_extinction, calc_rayleigh_scat_cross, depol_ratio_1064]
  · have hw : (0 : ℝ) < (1064 * (10 : ℝ) ^ (-9 : ℤ)) ^ (-4.0117 : ℝ) :=
      Real.rpow_pos_of_pos (by positivity) _
    rw [beta_eq 1064 [1] [10] (by decide), beta_eq 1064 [1] [(10 : ℝ) + 273.15] (by decide)]
    simp only [List.zipWith_cons_cons, List.zipWith_nil_right, ne_eq,
      Option.some.injEq, List.cons.injEq, and_true, not_and]
    intro h
    nlinarith [h, hw]

/-- C3 (amended): unit normalization is NOT applied uniformly up front:
with celsius=True only the number-density stage shifts the temperature to
kelvin while the backscatter stage divides by the raw input temperature,
and with kilometers=True the transmission stage uses the input altitude
divided by 1000 (meters to kilometers). -/
theorem unit_normalization_actual (w : ℝ) (P T re ap : List ℝ)
    (h : P.length = T.length) :
    calc_beta_rayleigh w P T true
      = some (List.zipWith
          (fun p t => 2.938e-32 * (p / t) * (w * (10 : ℝ) ^ (-9 : ℤ)) ^ (-4.0117 : ℝ)) P T) ∧
    calc_number_density P T true
      = some (List.zipWith (fun p t => p / (1.38064852e-23 * (t + 273.15))) P T) ∧
    calc_rayleigh_trans re ap true
      = calc_rayleigh_trans re (ap.map (fun z => z / 1000)) false :=
  ⟨beta_eq w P T h, nd_true_eq P T h, trans_km_eq re ap⟩

theorem unit_normalization_actual_witness :
    ([(1 : ℝ)]).length = ([(10 : ℝ)]).length ∧
    (calc_beta_rayleigh 2 [(1 : ℝ)] [(10 : ℝ)] true
      = some (List.zipWith
          (fun p t => 2.938e-32 * (p / t) * ((2 : ℝ) * (10 : ℝ) ^ (-9 : ℤ)) ^ (-4.0117 : ℝ))
          [(1 : ℝ)] [(10 : ℝ)]) ∧
    calc_number_density [(1 : ℝ)] [(10 : ℝ)] true
      = some (List.zipWith (fun p t => p / (1.38064852e-23 * (t + 273.15))) [(1 : ℝ)] [(10 : ℝ)]) ∧
    calc_rayleigh_trans [(5 : ℝ)] [(0 : ℝ), 1000] true
      = calc_rayleigh_trans [(5 : ℝ)] (([(0 : ℝ), 1000]).map (fun z => z / 1000)) false) :=
  ⟨by decide, unit_normalization_actual 2 [1] [10] [5] [0, 1000] (by decide)⟩

/-- C5 (counterexample): applied to empty pressure/temperature/altitude
profiles the pipeline does NOT fail: it silently returns empty profile
outputs and transmission exactly 1. -/
theorem pipeline_empty_silently_succeeds :
    calc_rayleigh_beta_dot_trans 1064 [] [] [] true true true
      = some ([], [], [], [], 1) :=
  pipeline_empty_eq

/-- C5 (amended): the pipeline performs no shape validation: empty
profiles silently produce empty outputs with transmission 1, a length-1
temperature against a longer pressure profile is silently broadcast, and
only a mismatch in which neither operand has length 1 raises (numpy
broadcast error, modelled as `none`). -/
theorem shape_handling_actual (P : List ℝ) (t0 : ℝ) (h : 2 ≤ P.length) :
    calc_rayleigh_beta_dot_trans 1064 [] [] [] true true true
      = some ([], [], [], [], 1) ∧
    calc_number_density P [t0] true
      = some (P.map (fun p => p / (1.38064852e-23 * (t0 + 273.15)))) ∧
    ∀ T : List ℝ, P.length ≠ T.length → T.length ≠ 1 →
      calc_number_density P T true = none := by
  refine ⟨pipeline_empty_eq, ?_, fun T h1 h2 => nd_none_of_mismatch P T h1 h2 (by omega)⟩
  unfold calc_number_density npDiv
  rw [if_pos rfl, if_neg (by simp; omega), if_pos (by simp)]
  simp

theorem shape_handling_actual_witness :
    2 ≤ ([(1 : ℝ), 2]).length ∧
    (calc_rayleigh_beta_dot_trans 1064 [] [] [] true true true
      = some ([], [], [], [], 1) ∧
    calc_number_density [(1 : ℝ), 2] [(300 : ℝ)] true
      = some (([(1 : ℝ), 2]).map (fun p => p / (1.38064852e-23 * ((300 : ℝ) + 273.15)))) ∧
    ∀ T : List ℝ, ([(1 : ℝ), 2]).length ≠ T.length → T.length ≠ 1 →
      calc_number_density [(1 : ℝ), 2] T true = none) :=
  ⟨by decide, shape_handling_actual [1, 2] 300 (by decide)⟩


/-! ### Interpolation bounds and cross-section positivity -/

theorem interpLinear_some_bounds (lo hi : ℝ) (rest : List (ℝ × ℝ))
    (x1 y1 lam xlast ylast : ℝ) :
    lo ≤ y1 → y1 ≤ hi → (∀ p ∈ rest, lo ≤ p.2 ∧ p.2 ≤ hi) →
    List.Chain' (fun p q : ℝ × ℝ => p.1 < q.1) ((x1, y1) :: rest) →
    x1 ≤ lam → rest ≠ [] →
    ((x1, y1) :: rest).getLast? = some (xlast, ylast) → lam ≤ xlast →
    ∃ r, interpLinear ((x1, y1) :: rest) lam = some r ∧ lo ≤ r ∧ r ≤ hi := by
  induction rest generalizing x1 y1 with
  | nil =>
    intro _ _ _ _ _ hne _ _
    exact absurd rfl hne
  | cons q rest2 ih =>
    intro hy1lo hy1hi hrest hchain hx1 _ hlast hlam2
    obtain ⟨x2, y2⟩ := q
    have hx12 : x1 < x2 := (List.chain'_cons.mp hchain).1
    by_cases hle : lam ≤ x2
    · have hy2lo := (hrest (x2, y2) (by simp)).1
      have hy2hi := (hrest (x2, y2) (by simp)).2
      have hd : (0 : ℝ) < x2 - x1 := by linarith
      have ht0 : 0 ≤ (lam - x1) / (x2 - x1) := div_nonneg (by linarith) hd.le
      have ht1 : (lam - x1) / (x2 - x1) ≤ 1 := (div_le_one hd).mpr (by linarith)
      have hrw : y1 + (lam - x1) * (y2 - y1) / (x2 - x1)
          = y1 + (lam - x1) / (x2 - x1) * (y2 - y1) := by ring
      refine ⟨y1 + (lam - x1) * (y2 - y1) / (x2 - x1), ?_, ?_, ?_⟩
      · simp only [interpLinear]
        rw [if_pos hle]
      · rw [hrw]
        nlinarith [ht0, ht1, hy1lo, hy2lo]
      · rw [hrw]
        nlinarith [ht0, ht1, hy1hi, hy2hi]
    · cases rest2 with
      | nil =>
        obtain ⟨hx, hy⟩ : x2 = xlast ∧ y2 = ylast := by simpa using hlast
        exact absurd (by rw [hx]; exact hlam2) hle
      | cons q3 r3 =>
        have hx2 : x2 ≤ lam := (not_le.mp hle).le
        obtain ⟨r, hr, hlo, hhi⟩ := ih x2 y2 (hrest (x2, y2) (by simp)).1
          (hrest (x2, y2) (by simp)).2
          (fun p hp => hrest p (List.mem_cons_of_mem _ hp))
          (List.chain'_cons.mp hchain).2 hx2 (by simp)
          (by simpa using hlast) hlam2
        refine ⟨r, ?_, hlo, hhi⟩
        simp only [interpLinear]
        rw [if_neg hle]
        exact hr

theorem calc_depol_ratio_bounds (lam : ℝ) (h1 : 200 ≤ lam) (h2 : lam ≤ 1064) :
    ∃ dr, calc_depol_ratio lam = some dr ∧ 0.0273018 ≤ dr ∧ dr ≤ 0.0454545 := by
  unfold calc_depol_ratio
  rw [if_neg (by push_neg; linarith)]
  simp only [wavelengths, depolarize, List.zip, List.zipWith_cons_cons, List.zipWith_nil_right]
  exact interpLinear_some_bounds 0.0273018 0.0454545 _ 200 0.0454545 lam 1064 0.0273018
    (by norm_num) (by norm_num) (by norm_num)
    (by norm_num [List.chain'_cons, List.chain'_singleton])
    h1 (by simp) (by simp) h2

theorem calc_index_refraction_gt_one (lam : ℝ) (h1 : 200 ≤ lam) :
    1 < calc_index_refraction lam := by
  unfold calc_index_refraction
  have hl : (0 : ℝ) < lam := by linarith
  have hsq : (40000 : ℝ) ≤ lam ^ 2 := by nlinarith
  have h6 : (10 : ℝ) ^ 6 / lam ^ 2 ≤ 25 := by
    rw [div_le_iff₀ (by positivity)]
    nlinarith
  have ha : (0 : ℝ) < 238.0185 - (10 : ℝ) ^ 6 / lam ^ 2 := by linarith
  have hb : (0 : ℝ) < 57.362 - (10 : ℝ) ^ 6 / lam ^ 2 := by linarith
  have hta : (0 : ℝ) < 5791817.0 / (238.0185 - (10 : ℝ) ^ 6 / lam ^ 2) :=
    div_pos (by norm_num) ha
  have htb : (0 : ℝ) < 167909.0 / (57.362 - (10 : ℝ) ^ 6 / lam ^ 2) :=
    div_pos (by norm_num) hb
  have hmul : (0 : ℝ) < (5791817.0 / (238.0185 - (10 : ℝ) ^ 6 / lam ^ 2)
      + 167909.0 / (57.362 - (10 : ℝ) ^ 6 / lam ^ 2)) * 1e-8 :=
    mul_pos (by linarith) (by norm_num)
  linarith

theorem calc_rayleigh_scat_cross_pos (lam : ℝ) (h1 : 200 ≤ lam) (h2 : lam ≤ 1064) :
    ∃ rs, calc_rayleigh_scat_cross lam = some rs ∧ 0 < rs := by
  obtain ⟨dr, hdr, hdr1, hdr2⟩ := calc_depol_ratio_bounds lam h1 h2
  refine ⟨_, by unfold calc_rayleigh_scat_cross; rw [hdr]; rfl, ?_⟩
  have hn := calc_index_refraction_gt_one lam h1
  have hlam : (0 : ℝ) < lam := by linarith
  have hn2 : 1 < calc_index_refraction lam ^ 2 := by nlinarith
  have hnum : (0 : ℝ) < 1e36 * 24 * Real.pi ^ 3 * (calc_index_refraction lam ^ 2 - 1) ^ 2 := by
    have hpi := Real.pi_pos
    have hsq : (0 : ℝ) < (calc_index_refraction lam ^ 2 - 1) ^ 2 :=
      pow_pos (by linarith) 2
    positivity
  have hden : (0 : ℝ) < lam ^ 4 * (2.54691e25 : ℝ) ^ 2
      * (calc_index_refraction lam ^ 2 + 2) ^ 2 := by positivity
  have hfrac : (0 : ℝ) < (6 + 3 * dr) / (6 - 7 * dr) :=
    div_pos (by linarith) (by linarith)
  exact mul_pos (div_pos hnum hden) hfrac

theorem sorted_gt_map (l : List ℝ) (f : ℝ → ℝ) (hf : ∀ a b : ℝ, b < a → f b < f a)
    (h : List.Sorted (· > ·) l) : List.Sorted (· > ·) (l.map f) := by
  rw [List.Sorted, List.pairwise_map]
  exact h.imp (fun hab => hf _ _ hab)

theorem zipWith_replicate_right_eq (f : ℝ → ℝ → ℝ) (c : ℝ) (P : List ℝ) :
    List.zipWith f P (List.replicate P.length c) = P.map (fun p => f p c) := by
  induction P with
  | nil => rfl
  | cons x xs ih => simp [List.replicate_succ, ih]

/-! ### Claim C10 -/

/-- C10: for a profile with strictly decreasing positive pressure,
constant positive kelvin temperature (celsius=False), and any wavelength
in the tabulated domain, the number density and the Rayleigh extinction
profiles are strictly decreasing along the profile. -/
theorem number_density_extinction_monotone (P : List ℝ) (T0 lam : ℝ) (n : ℕ)
    (hlen : P.length = n) (hP : List.Sorted (· > ·) P) (hpos : ∀ p ∈ P, 0 < p)
    (hT : 0 < T0) (hlam1 : 200 ≤ lam) (hlam2 : lam ≤ 1064) :
    ∃ nd alpha : List ℝ,
      calc_number_density P (List.replicate n T0) false = some nd ∧
      calc_rayleigh_extinction lam nd = some alpha ∧
      List.Sorted (· > ·) nd ∧ List.Sorted (· > ·) alpha := by
  subst hlen
  obtain ⟨rs, hrs, hrspos⟩ := calc_rayleigh_scat_cross_pos lam hlam1 hlam2
  have hkT : (0 : ℝ) < 1.38064852e-23 * T0 := mul_pos (by norm_num) hT
  have hnd : calc_number_density P (List.replicate P.length T0) false
      = some (P.map (fun p => p / (1.38064852e-23 * T0))) := by
    unfold calc_number_density
    rw [if_neg (by simp), List.map_replicate,
      npDiv_eq_zipWith _ _ (by simp), zipWith_replicate_right_eq]
  refine ⟨P.map (fun p => p / (1.38064852e-23 * T0)),
    (P.map (fun p => p / (1.38064852e-23 * T0))).map (fun x => x * rs * 1000),
    hnd, ?_, ?_, ?_⟩
  · unfold calc_rayleigh_extinction
    rw [hrs]
    rfl
  · exact sorted_gt_map P _ (fun a b hab =>
      (div_lt_div_iff_of_pos_right hkT).mpr hab) hP
  · exact sorted_gt_map _ _ (fun a b hab =>
      mul_lt_mul_of_pos_right (mul_lt_mul_of_pos_right hab hrspos) (by norm_num))
      (sorted_gt_map P _ (fun a b hab => (div_lt_div_iff_of_pos_right hkT).mpr hab) hP)

theorem number_density_extinction_monotone_witness :
    ([(2 : ℝ), 1]).length = 2 ∧ List.Sorted (· > ·) [(2 : ℝ), 1] ∧
    (∀ p ∈ [(2 : ℝ), 1], 0 < p) ∧ (0 : ℝ) < 1 ∧ (200 : ℝ) ≤ 1064 ∧ (1064 : ℝ) ≤ 1064 ∧
    ∃ nd alpha : List ℝ,
      calc_number_density [(2 : ℝ), 1] (List.replicate 2 1) false = some nd ∧
      calc_rayleigh_extinction 1064 nd = some alpha ∧
      List.Sorted (· > ·) nd ∧ List.Sorted (· > ·) alpha :=
  ⟨by decide, by simp [List.sorted_cons], by norm_num, by norm_num, by norm_num, by norm_num,
    number_density_extinction_monotone [2, 1] 1 1064 2 (by decide)
      (by simp [List.sorted_cons]) (by norm_num) (by norm_num) (by norm_num) (by norm_num)⟩

end LidarUtilities
